import Mathlib

/-!
Verification of the roster-automation core in `src/app.py`.

The file embeds the two core functions of the program:

* `clean_employee_data` (the Normalizer of the spec): cleans a raw table
  into a canonical employee frame, or fails.
* `generate_roster` (the RosterGenerator of the spec): assigns one of the
  shift labels `"Day"`, `"Night"`, `"WO"` (the spec calls these
  `WORK-DAY`, `WORK-NIGHT`, `WEEK-OFF`) to every (employee, date) pair.

Calendar arithmetic models Python `datetime.date` plus `timedelta(days=i)`
on the proleptic Gregorian calendar, and `date.strftime('%A')` weekday
names.
-/

/-- A calendar date, as Python `datetime.date`: year, month (1-12),
day-of-month (1-based). -/
structure Date where
  year : Nat
  month : Nat
  day : Nat
deriving DecidableEq

/-- Gregorian leap-year test, as Python `calendar`/`datetime` use. -/
def isLeapYear (y : Nat) : Bool :=
  (y % 4 == 0 && y % 100 != 0) || y % 400 == 0

/-- Number of days in a month of the Gregorian calendar. -/
def daysInMonth (y m : Nat) : Nat :=
  if m = 2 then (if isLeapYear y then 29 else 28)
  else if m = 4 ∨ m = 6 ∨ m = 9 ∨ m = 11 then 30
  else 31

/-- The successor date: `d + timedelta(days=1)`, rolling over month and
year boundaries exactly as calendar arithmetic does. -/
def nextDay (d : Date) : Date :=
  if d.day < daysInMonth d.year d.month then ⟨d.year, d.month, d.day + 1⟩
  else if d.month < 12 then ⟨d.year, d.month + 1, 1⟩
  else ⟨d.year + 1, 1, 1⟩

/-- `d + timedelta(days=n)`. -/
def addDays (d : Date) : Nat → Date
  | 0 => d
  | n + 1 => nextDay (addDays d n)

/-- Days of the proleptic Gregorian calendar strictly before January 1 of
year `y`. -/
def daysBeforeYear (y : Nat) : Nat :=
  365 * (y - 1) + (y - 1) / 4 - (y - 1) / 100 + (y - 1) / 400

/-- Days of year `y` strictly before the first day of month `m`. -/
def daysBeforeMonth (y m : Nat) : Nat :=
  (List.range (m - 1)).foldl (fun a k => a + daysInMonth y (k + 1)) 0

/-- Rata-die day number: 0001-01-01 has number 1 (a Monday). -/
def rataDie (d : Date) : Nat :=
  daysBeforeYear d.year + daysBeforeMonth d.year d.month + d.day

/-- Weekday name of a date, as Python `date.strftime('%A')` produces it. -/
def dayName (d : Date) : String :=
  match rataDie d % 7 with
  | 0 => "Sunday"
  | 1 => "Monday"
  | 2 => "Tuesday"
  | 3 => "Wednesday"
  | 4 => "Thursday"
  | 5 => "Friday"
  | _ => "Saturday"

/-- A cell of a pandas frame: `none` is NaN (a missing value), `some s` a
string value. -/
abbrev Cell := Option String

/-- A canonical employee record, one row of the cleaned frame: columns
`Employee ID`, `NAME`, `Department`. -/
structure EmployeeRecord where
  employeeId : Cell
  name : Cell
  department : Cell
deriving DecidableEq

/-- The per-cell shift assignment of `generate_roster` (src/app.py lines
160-178): even rows take `WO` on Saturday/Sunday, odd rows on
Tuesday/Wednesday; otherwise `Day` on even days-of-month, `Night` on odd
ones. -/
def assignShift (idx : Nat) (d : Date) : String :=
  if idx % 2 == 0 then
    if dayName d == "Saturday" || dayName d == "Sunday" then "WO"
    else if d.day % 2 == 0 then "Day" else "Night"
  else
    if dayName d == "Tuesday" || dayName d == "Wednesday" then "WO"
    else if d.day % 2 == 0 then "Day" else "Night"

/-- The sequence of dated cells of the row at position `idx`: one cell per
day offset in `[0, n)`, in date order (the date columns the source appends
to the frame). -/
def rosterRow (idx : Nat) (start : Date) (n : Nat) : List (Date × String) :=
  (List.range n).map (fun i => (addDays start i, assignShift idx (addDays start i)))

/-- `generate_roster` (src/app.py lines 137-180): every employee row of the
input, in order, annotated with its dated shift cells. Row parity is the
0-based position in the input list (the frame's reset index). -/
def generate_roster (emps : List EmployeeRecord) (start : Date) (n : Nat) :
    List (EmployeeRecord × List (Date × String)) :=
  emps.enum.map (fun p => (p.2, rosterRow p.1 start n))

/-- The shift label of the grid cell at row `idx`, day offset `i`
(`none` when out of range). -/
def gridCell (g : List (EmployeeRecord × List (Date × String))) (idx i : Nat) :
    Option String :=
  match g.get? idx with
  | none => none
  | some row =>
    match row.2.get? i with
    | none => none
    | some c => some c.2

/-- A raw input table as handed to `clean_employee_data`: the declared
column labels and the data rows. Labels are cells too, since a promoted
header row may contain NaN labels; a declared label `s` is `some s`. -/
structure RawTable where
  header : List Cell
  rows : List (List Cell)
deriving DecidableEq

/-- A working frame during cleaning: resolved column labels and rows. -/
structure Frame where
  cols : List Cell
  rows : List (List Cell)
deriving DecidableEq

/-- Failure modes of `clean_employee_data`. `emptyTable` is the IndexError
raised by `df.iloc[0]` on a frame with no rows; `lengthMismatch` is the
pandas ValueError raised when a column-label list of the wrong length is
assigned to `df.columns`; `missingColumn` is the required-column failure
reported with `st.error` (the function returns None). -/
inductive NormError where
  | emptyTable
  | lengthMismatch
  | missingColumn (c : String)
deriving DecidableEq

deriving instance DecidableEq for Except

/-- `str(cell)`: NaN prints as `nan`. -/
def cellStr (c : Cell) : String :=
  match c with
  | none => "nan"
  | some s => s

/-- How a cell appears inside `str(row.values)` for an object-dtype numpy
array: strings quoted, NaN bare. -/
def cellRepr (c : Cell) : String :=
  match c with
  | none => "nan"
  | some s => "'" ++ s ++ "'"

/-- Join strings with single spaces, as numpy separates row values. -/
def joinSpaced : List String → String
  | [] => ""
  | [s] => s
  | s :: rest => s ++ " " ++ joinSpaced rest

/-- `str(df.iloc[0].values)`: the numpy rendering of the first row. -/
def rowStr (r : List Cell) : String :=
  "[" ++ joinSpaced (r.map cellRepr) ++ "]"

/-- Python `str.strip()`: remove leading and trailing whitespace. -/
def strTrim (s : String) : String :=
  String.mk (((s.data.dropWhile Char.isWhitespace).reverse.dropWhile Char.isWhitespace).reverse)

/-- Python `str.startswith(pat)`. -/
def strStartsWith (s pat : String) : Bool :=
  pat.data.isPrefixOf s.data

/-- Python substring containment `pat in s`. -/
def strContains (s pat : String) : Bool :=
  (List.range (s.length + 1)).any (fun i => pat.data.isPrefixOf (s.data.drop i))

/-- The header-repair trigger (src/app.py line 87):
`'Employee ID' in df.iloc[0].values or 'Employee ID' in str(df.iloc[0].values)`. -/
def markerRow (r : List Cell) : Bool :=
  r.any (fun c => c == some "Employee ID") || strContains (rowStr r) "Employee ID"

/-- Garbage labels (src/app.py line 98): `2`, `nan`, `Unnamed`, or
anything starting with `Unnamed:`. -/
def garbageLabel (s : String) : Bool :=
  s == "2" || s == "nan" || s == "Unnamed" || strStartsWith s "Unnamed:"

/-- The allowlist of known semantic column names (src/app.py line 99). -/
def knownLabel (s : String) : Bool :=
  s == "Employee ID" || s == "NAME" || s == "Department" ||
    s == "User ID" || s == "Status" || s == "WINS"

/-- Whether a column is kept by the selection scan (src/app.py lines
95-100): its stripped string form is not garbage and is a known name. -/
def keepCol (c : Cell) : Bool :=
  !garbageLabel (strTrim (cellStr c)) && knownLabel (strTrim (cellStr c))

/-- Project a row onto the columns at the given positions (missing
positions read as NaN). -/
def project (idxs : List Nat) (r : List Cell) : List Cell :=
  idxs.map (fun j => r.getD j none)

/-- Header repair (src/app.py lines 87-91) applied to a non-empty table:
if the first data row carries the `Employee ID` marker it becomes the
column labels and is dropped from the data. -/
def repairHeader (hdr r0 : List Cell) (rest : List (List Cell)) : RawTable :=
  if markerRow r0 then ⟨r0, rest⟩ else ⟨hdr, r0 :: rest⟩

/-- Column resolution after header repair (src/app.py lines 93-115):
allowlist scan, then the positional fallbacks. Renaming the first six
columns of a table with 3-5 columns, or assigning three labels to fewer
than 3 columns, raises a pandas length-mismatch error. -/
def resolveRepaired (t : RawTable) : Except NormError Frame :=
  let keptIdx := (List.range t.header.length).filter (fun j => keepCol (t.header.getD j none))
  if keptIdx.isEmpty then
    if 3 ≤ t.header.length then
      if t.header.length < 6 then Except.error NormError.lengthMismatch
      else
        Except.ok ⟨[some "Employee ID", some "NAME", some "Department"],
          t.rows.map (project [0, 2, 4])⟩
    else Except.error NormError.lengthMismatch
  else
    Except.ok ⟨keptIdx.map (fun j => t.header.getD j none), t.rows.map (project keptIdx)⟩

/-- Header repair plus column resolution: the frame on which the
required-column check runs, or the error raised before that point. -/
def resolveFrame (t : RawTable) : Except NormError Frame :=
  match t.rows with
  | [] => Except.error NormError.emptyTable
  | r0 :: rest => resolveRepaired (repairHeader t.header r0 rest)

/-- Required-column check (src/app.py lines 117-122): the first of
`Employee ID`, `NAME` not among the resolved labels is reported. -/
def requiredCheck (f : Frame) : Except NormError Frame :=
  if some "Employee ID" ∈ f.cols then
    if some "NAME" ∈ f.cols then Except.ok f
    else Except.error (NormError.missingColumn "NAME")
  else Except.error (NormError.missingColumn "Employee ID")

/-- Department default (src/app.py lines 125-126): synthesize a
`Department` column of `Inbound` when absent. -/
def addDept (f : Frame) : Frame :=
  if some "Department" ∈ f.cols then f
  else ⟨f.cols ++ [some "Department"], f.rows.map (fun r => r ++ [some "Inbound"])⟩

/-- The cell of row `r` in the column labelled `c` of frame `f` (first
matching label, NaN when absent). -/
def fieldCell (f : Frame) (c : Cell) (r : List Cell) : Cell :=
  r.getD (f.cols.findIdx (fun x => x == c)) none

/-- Row filtering (src/app.py line 129):
`dropna(subset=['Employee ID', 'NAME'], how='all')` drops exactly the rows
whose `Employee ID` and `NAME` cells are both NaN. -/
def dropEmpty (f : Frame) : Frame :=
  ⟨f.cols, f.rows.filter (fun r =>
    !(fieldCell f (some "Employee ID") r == none && fieldCell f (some "NAME") r == none))⟩

/-- The tail of the pipeline after column resolution: required-column
check, Department default, row filtering (src/app.py lines 117-132). -/
def finishClean (r : Except NormError Frame) : Except NormError Frame :=
  match r with
  | Except.error e => Except.error e
  | Except.ok f =>
    match requiredCheck f with
    | Except.error e => Except.error e
    | Except.ok f1 => Except.ok (dropEmpty (addDept f1))

/-- The pipeline applied to a table whose header has already been
repaired: everything of `clean_employee_data` after src/app.py line 91. -/
def cleanRepaired (t : RawTable) : Except NormError Frame :=
  finishClean (resolveRepaired t)

/-- `clean_employee_data` (src/app.py lines 82-134): the whole normalizer
pipeline. The final `reset_index(drop=True)` is the identity on the list
of rows. -/
def clean_employee_data (t : RawTable) : Except NormError Frame :=
  match t.rows with
  | [] => Except.error NormError.emptyTable
  | r0 :: rest => cleanRepaired (repairHeader t.header r0 rest)

/-! ## Lemmas about the roster generator -/

theorem generate_roster_get? (emps : List EmployeeRecord) (start : Date) (n idx : Nat) :
    (generate_roster emps start n).get? idx =
      (emps.get? idx).map (fun e => (e, rosterRow idx start n)) := by
  unfold generate_roster
  rw [List.get?_map, List.get?_enum]
  cases emps.get? idx <;> rfl

theorem rosterRow_get? (idx : Nat) (start : Date) (n i : Nat) (h : i < n) :
    (rosterRow idx start n).get? i =
      some (addDays start i, assignShift idx (addDays start i)) := by
  unfold rosterRow
  rw [List.get?_map, List.get?_range h]
  rfl

theorem gridCell_eq (emps : List EmployeeRecord) (start : Date) (n idx i : Nat)
    (h1 : idx < emps.length) (h2 : i < n) :
    gridCell (generate_roster emps start n) idx i =
      some (assignShift idx (addDays start i)) := by
  unfold gridCell
  rw [generate_roster_get?, List.get?_eq_get h1]
  dsimp
  rw [rosterRow_get? idx start n i h2]

theorem assignShift_eq_WO_iff (idx : Nat) (d : Date) :
    assignShift idx d = "WO" ↔
      (idx % 2 = 0 ∧ (dayName d = "Saturday" ∨ dayName d = "Sunday")) ∨
      (idx % 2 = 1 ∧ (dayName d = "Tuesday" ∨ dayName d = "Wednesday")) := by
  unfold assignShift
  rcases Nat.mod_two_eq_zero_or_one idx with hp | hp <;> rw [hp] <;>
    split_ifs <;> simp_all

theorem assignShift_not_WO (idx : Nat) (d : Date)
    (h : ¬ ((idx % 2 = 0 ∧ (dayName d = "Saturday" ∨ dayName d = "Sunday")) ∨
            (idx % 2 = 1 ∧ (dayName d = "Tuesday" ∨ dayName d = "Wednesday")))) :
    assignShift idx d = (if d.day % 2 = 0 then "Day" else "Night") := by
  unfold assignShift
  rcases Nat.mod_two_eq_zero_or_one idx with hp | hp <;> rw [hp] <;>
    split_ifs <;> simp_all

/-! ## Claim theorems about the roster generator -/

/-- C1: for the two-employee list [(E1, Alice), (E2, Bob)] with start date
2024-03-01 and a 7-day horizon, `generate_roster` produces exactly the grid
the spec enumerates. In the source's labels (`Night` = WORK-NIGHT, `Day` =
WORK-DAY, `WO` = WEEK-OFF): Alice (row 0) gets Night, WO, WO, Day, Night,
Day, Night for Mar 1-7, and Bob (row 1) gets Night, Day, Night, Day, WO,
WO, Night. -/
theorem generate_concrete_grid :
    generate_roster [⟨some "E1", some "Alice", some "Inbound"⟩,
        ⟨some "E2", some "Bob", some "Inbound"⟩] ⟨2024, 3, 1⟩ 7 =
      [(⟨some "E1", some "Alice", some "Inbound"⟩,
        [(⟨2024, 3, 1⟩, "Night"), (⟨2024, 3, 2⟩, "WO"), (⟨2024, 3, 3⟩, "WO"),
         (⟨2024, 3, 4⟩, "Day"), (⟨2024, 3, 5⟩, "Night"), (⟨2024, 3, 6⟩, "Day"),
         (⟨2024, 3, 7⟩, "Night")]),
       (⟨some "E2", some "Bob", some "Inbound"⟩,
        [(⟨2024, 3, 1⟩, "Night"), (⟨2024, 3, 2⟩, "Day"), (⟨2024, 3, 3⟩, "Night"),
         (⟨2024, 3, 4⟩, "Day"), (⟨2024, 3, 5⟩, "WO"), (⟨2024, 3, 6⟩, "WO"),
         (⟨2024, 3, 7⟩, "Night")])] := by
  decide

/-- C2: for every employee list, start date, horizon, row index and day
offset in range, the grid cell is `WO` (WEEK-OFF) exactly when the row
index is even and the date falls on Saturday or Sunday, or the row index
is odd and the date falls on Tuesday or Wednesday — for any month or
year, and for no other combination. -/
theorem generate_weekoff_iff (emps : List EmployeeRecord) (start : Date) (n idx i : Nat)
    (h1 : idx < emps.length) (h2 : i < n) :
    gridCell (generate_roster emps start n) idx i = some "WO" ↔
      (idx % 2 = 0 ∧
        (dayName (addDays start i) = "Saturday" ∨ dayName (addDays start i) = "Sunday")) ∨
      (idx % 2 = 1 ∧
        (dayName (addDays start i) = "Tuesday" ∨ dayName (addDays start i) = "Wednesday")) := by
  rw [gridCell_eq emps start n idx i h1 h2]
  rw [show (some (assignShift idx (addDays start i)) = some "WO") ↔
      (assignShift idx (addDays start i) = "WO") by simp]
  exact assignShift_eq_WO_iff idx (addDays start i)

/-- Witness for `generate_weekoff_iff`: 2024-03-02 is a Saturday, so row 0
has a week off on the second day of the March 2024 roster. -/
theorem generate_weekoff_iff_witness :
    gridCell (generate_roster [⟨some "E1", some "Alice", some "Inbound"⟩]
        ⟨2024, 3, 1⟩ 7) 0 1 = some "WO" :=
  (generate_weekoff_iff [⟨some "E1", some "Alice", some "Inbound"⟩]
    ⟨2024, 3, 1⟩ 7 0 1 (by decide) (by decide)).mpr (by decide)

/-- C3: for every in-range cell that is not a week-off day for its row,
the grid cell is `Day` (WORK-DAY) when the day-of-month of that date is
even and `Night` (WORK-NIGHT) when it is odd. The day-of-month is that of
`addDays start i`, i.e. recomputed from the date's own month after any
month rollover. -/
theorem generate_shift_parity (emps : List EmployeeRecord) (start : Date) (n idx i : Nat)
    (h1 : idx < emps.length) (h2 : i < n)
    (hw : ¬ ((idx % 2 = 0 ∧
        (dayName (addDays start i) = "Saturday" ∨ dayName (addDays start i) = "Sunday")) ∨
      (idx % 2 = 1 ∧
        (dayName (addDays start i) = "Tuesday" ∨ dayName (addDays start i) = "Wednesday")))) :
    gridCell (generate_roster emps start n) idx i =
      some (if (addDays start i).day % 2 = 0 then "Day" else "Night") := by
  rw [gridCell_eq emps start n idx i h1 h2, assignShift_not_WO idx (addDays start i) hw]

/-- Witness for `generate_shift_parity`, crossing a month boundary: two
days after 2024-02-28 is 2024-03-01 (a Friday, not a week-off for row 0),
whose own day-of-month 1 is odd, so the cell is `Night`. -/
theorem generate_shift_parity_witness :
    gridCell (generate_roster [⟨some "E1", some "Alice", some "Inbound"⟩]
        ⟨2024, 2, 28⟩ 3) 0 2 =
      some (if (addDays ⟨2024, 2, 28⟩ 2).day % 2 = 0 then "Day" else "Night") :=
  generate_shift_parity [⟨some "E1", some "Alice", some "Inbound"⟩]
    ⟨2024, 2, 28⟩ 3 0 2 (by decide) (by decide) (by decide)

/-- C9: `generate_roster` is total — it is a function defined on every
employee list, start date and horizon — the grid always has one row per
input employee, and a zero-day horizon yields every input row with an
empty cell sequence rather than a failure. -/
theorem generate_total_and_zero_horizon (emps : List EmployeeRecord) (start : Date) (n : Nat) :
    (generate_roster emps start n).length = emps.length ∧
      generate_roster emps start 0 = emps.map (fun e => (e, ([] : List (Date × String)))) := by
  constructor
  · unfold generate_roster
    rw [List.length_map, List.enum_length]
  · unfold generate_roster rosterRow
    rw [show (fun p : Nat × EmployeeRecord =>
        (p.2, (List.range 0).map (fun i => (addDays start i, assignShift p.1 (addDays start i))))) =
      ((fun e => (e, ([] : List (Date × String)))) ∘ Prod.snd) from rfl]
    rw [← List.map_map, List.enum_map_snd]

/-! ## Lemmas about the normalizer -/

theorem clean_eq_finish (t : RawTable) :
    clean_employee_data t = finishClean (resolveFrame t) := by
  rcases t with ⟨hdr, rows⟩
  cases rows <;> rfl

theorem requiredCheck_ok_eq (f f1 : Frame) (h : requiredCheck f = Except.ok f1) :
    f1 = f := by
  unfold requiredCheck at h
  split_ifs at h <;> simp_all

theorem finishClean_ok (r : Except NormError Frame) (f : Frame)
    (h : finishClean r = Except.ok f) :
    ∃ f1, r = Except.ok f1 ∧ requiredCheck f1 = Except.ok f1 ∧
      f = dropEmpty (addDept f1) := by
  cases r with
  | error e => simp [finishClean] at h
  | ok f1 =>
    simp only [finishClean] at h
    cases hreq : requiredCheck f1 with
    | error e => rw [hreq] at h; simp at h
    | ok f2 =>
      rw [hreq] at h
      simp only [Except.ok.injEq] at h
      obtain rfl : f2 = f1 := requiredCheck_ok_eq f1 f2 hreq
      exact ⟨f2, rfl, hreq, h.symm⟩

theorem resolveRepaired_ne_missing (t : RawTable) (c : String) :
    resolveRepaired t ≠ Except.error (NormError.missingColumn c) := by
  unfold resolveRepaired
  dsimp only
  split_ifs <;> simp

theorem resolveFrame_ne_missing (t : RawTable) (c : String) :
    resolveFrame t ≠ Except.error (NormError.missingColumn c) := by
  rcases t with ⟨hdr, rows⟩
  cases rows with
  | nil => simp [resolveFrame]
  | cons r0 rest => exact resolveRepaired_ne_missing _ c

theorem fieldCell_dropEmpty (g : Frame) (c : Cell) (r : List Cell) :
    fieldCell (dropEmpty g) c r = fieldCell g c r := rfl

theorem mem_dropEmpty_iff (g : Frame) (r : List Cell) :
    r ∈ (dropEmpty g).rows ↔ r ∈ g.rows ∧
      ¬(fieldCell g (some "Employee ID") r = none ∧
        fieldCell g (some "NAME") r = none) := by
  unfold dropEmpty
  dsimp
  rw [List.mem_filter]
  constructor
  · rintro ⟨h1, h2⟩
    refine ⟨h1, ?_⟩
    simp at h2
    tauto
  · rintro ⟨h1, h2⟩
    refine ⟨h1, ?_⟩
    simp
    tauto

/-! ## Claim theorems about the normalizer -/

/-- C4 counterexample: the invariant fails on the code. For the table with
columns `Employee ID`, `NAME` and the single row (NaN, Bob), the cleaned
output keeps that row, so the canonical list contains a record whose
`Employee ID` is missing. `dropna(how='all')` only drops rows with both
fields missing. -/
theorem clean_keeps_missing_id :
    clean_employee_data ⟨[some "Employee ID", some "NAME"], [[none, some "Bob"]]⟩ =
      Except.ok ⟨[some "Employee ID", some "NAME", some "Department"],
        [[none, some "Bob", some "Inbound"]]⟩ ∧
    fieldCell ⟨[some "Employee ID", some "NAME", some "Department"],
        [[none, some "Bob", some "Inbound"]]⟩ (some "Employee ID")
      [none, some "Bob", some "Inbound"] = none := by
  exact ⟨by decide, by decide⟩

/-- C4 amended: every row of the canonical frame produced by
`clean_employee_data` has its `Employee ID` cell or its `NAME` cell
present (not NaN); rows with both missing are dropped before the frame is
finalized. A row with exactly one of the two missing is retained. -/
theorem clean_rows_not_all_missing (t : RawTable) (f : Frame)
    (h : clean_employee_data t = Except.ok f) (r : List Cell) (hr : r ∈ f.rows) :
    fieldCell f (some "Employee ID") r ≠ none ∨ fieldCell f (some "NAME") r ≠ none := by
  rw [clean_eq_finish] at h
  obtain ⟨f1, -, -, hf⟩ := finishClean_ok _ f h
  subst hf
  rw [mem_dropEmpty_iff] at hr
  rw [fieldCell_dropEmpty, fieldCell_dropEmpty]
  tauto

/-- Witness for `clean_rows_not_all_missing` at a concrete table whose
only row has `NAME` missing but `Employee ID` present. -/
theorem clean_rows_not_all_missing_witness :
    fieldCell ⟨[some "Employee ID", some "NAME", some "Department"],
        [[some "E1", none, some "Inbound"]]⟩ (some "Employee ID")
      [some "E1", none, some "Inbound"] ≠ none ∨
    fieldCell ⟨[some "Employee ID", some "NAME", some "Department"],
        [[some "E1", none, some "Inbound"]]⟩ (some "NAME")
      [some "E1", none, some "Inbound"] ≠ none :=
  clean_rows_not_all_missing ⟨[some "Employee ID", some "NAME"], [[some "E1", none]]⟩
    ⟨[some "Employee ID", some "NAME", some "Department"],
      [[some "E1", none, some "Inbound"]]⟩
    (by decide) [some "E1", none, some "Inbound"] (by decide)

/-- C5: a row is in the final frame exactly when it is among the
department-extended resolved rows and not both its `Employee ID` and
`NAME` cells are missing. In particular a row with only one of the two
populated passes the filter and is retained as-is. -/
theorem clean_row_filter_iff (t : RawTable) (f f1 : Frame)
    (h : clean_employee_data t = Except.ok f) (hres : resolveFrame t = Except.ok f1)
    (r : List Cell) :
    r ∈ f.rows ↔ r ∈ (addDept f1).rows ∧
      ¬(fieldCell (addDept f1) (some "Employee ID") r = none ∧
        fieldCell (addDept f1) (some "NAME") r = none) := by
  rw [clean_eq_finish, hres] at h
  obtain ⟨f2, heq, -, hf⟩ := finishClean_ok _ f h
  simp only [Except.ok.injEq] at heq
  subst heq
  subst hf
  exact mem_dropEmpty_iff (addDept f1) r

/-- Witness for `clean_row_filter_iff`: the table has one row with only
`NAME` missing and one row with both fields missing; the first row is
retained. -/
theorem clean_row_filter_iff_witness :
    [some "E1", none, some "Inbound"] ∈
        (Frame.mk [some "Employee ID", some "NAME", some "Department"]
          [[some "E1", none, some "Inbound"]]).rows ↔
      [some "E1", none, some "Inbound"] ∈
          (addDept ⟨[some "Employee ID", some "NAME"],
            [[some "E1", none], [none, none]]⟩).rows ∧
        ¬(fieldCell (addDept ⟨[some "Employee ID", some "NAME"],
              [[some "E1", none], [none, none]]⟩) (some "Employee ID")
            [some "E1", none, some "Inbound"] = none ∧
          fieldCell (addDept ⟨[some "Employee ID", some "NAME"],
              [[some "E1", none], [none, none]]⟩) (some "NAME")
            [some "E1", none, some "Inbound"] = none) :=
  clean_row_filter_iff
    ⟨[some "Employee ID", some "NAME"], [[some "E1", none], [none, none]]⟩
    ⟨[some "Employee ID", some "NAME", some "Department"],
      [[some "E1", none, some "Inbound"]]⟩
    ⟨[some "Employee ID", some "NAME"], [[some "E1", none], [none, none]]⟩
    (by decide) (by decide) [some "E1", none, some "Inbound"]

/-- C6: `clean_employee_data` fails reporting a missing required column
exactly when column resolution succeeds but `Employee ID` or `NAME` is
absent from the resolved labels; the reported name is `Employee ID` when
that one is absent, otherwise `NAME`. Since this is an error result, no
employee frame is produced in that case. -/
theorem clean_missing_column_iff (t : RawTable) (c : String) :
    clean_employee_data t = Except.error (NormError.missingColumn c) ↔
      ∃ f, resolveFrame t = Except.ok f ∧
        ((c = "Employee ID" ∧ some "Employee ID" ∉ f.cols) ∨
         (c = "NAME" ∧ some "Employee ID" ∈ f.cols ∧ some "NAME" ∉ f.cols)) := by
  rw [clean_eq_finish]
  cases hres : resolveFrame t with
  | error e =>
    simp only [finishClean]
    constructor
    · intro h
      simp only [Except.error.injEq] at h
      subst h
      exact absurd hres (resolveFrame_ne_missing t c)
    · rintro ⟨f, hf, -⟩
      simp at hf
  | ok f1 =>
    simp only [finishClean]
    unfold requiredCheck
    split_ifs with hE hN
    · simp [hE, hN]
    · constructor
      · intro h
        simp only [Except.error.injEq, NormError.missingColumn.injEq] at h
        exact ⟨f1, rfl, Or.inr ⟨h.symm, hE, hN⟩⟩
      · rintro ⟨f, hf, hcase⟩
        simp only [Except.ok.injEq] at hf
        subst hf
        rcases hcase with ⟨hc, hEm⟩ | ⟨hc, -, -⟩
        · exact absurd hE hEm
        · rw [hc]
    · constructor
      · intro h
        simp only [Except.error.injEq, NormError.missingColumn.injEq] at h
        exact ⟨f1, rfl, Or.inl ⟨h.symm, hE⟩⟩
      · rintro ⟨f, hf, hcase⟩
        simp only [Except.ok.injEq] at hf
        subst hf
        rcases hcase with ⟨hc, -⟩ | ⟨hc, hEm, -⟩
        · rw [hc]
        · exact absurd hEm hE

/-- C10: on a table with zero data rows `clean_employee_data` fails (the
source unconditionally reads `df.iloc[0]` during header repair, an
IndexError on an empty frame) instead of returning an empty employee
list. -/
theorem clean_empty_table (hdr : List Cell) :
    clean_employee_data ⟨hdr, []⟩ = Except.error NormError.emptyTable := rfl

/-- C8: the header-repair trigger fires exactly when the first data row
has a cell equal to `Employee ID` or the marker occurs as a substring of
the stringified row values; when it fires, that row becomes the column
labels and is dropped from the data before the rest of the pipeline runs,
and otherwise the declared header and all data rows are left in place. -/
theorem clean_header_repair (hdr r0 : List Cell) (rest : List (List Cell)) :
    (markerRow r0 = true ↔
      some "Employee ID" ∈ r0 ∨ strContains (rowStr r0) "Employee ID" = true) ∧
    (markerRow r0 = true →
      clean_employee_data ⟨hdr, r0 :: rest⟩ = cleanRepaired ⟨r0, rest⟩) ∧
    (markerRow r0 = false →
      clean_employee_data ⟨hdr, r0 :: rest⟩ = cleanRepaired ⟨hdr, r0 :: rest⟩) := by
  refine ⟨?_, ?_, ?_⟩
  · unfold markerRow
    simp [List.any_eq_true]
  · intro h
    show cleanRepaired (repairHeader hdr r0 rest) = cleanRepaired ⟨r0, rest⟩
    rw [repairHeader, if_pos h]
  · intro h
    show cleanRepaired (repairHeader hdr r0 rest) = cleanRepaired ⟨hdr, r0 :: rest⟩
    rw [repairHeader, if_neg (by simp [h])]

/-- Witness for `clean_header_repair`: a banner header is replaced by the
first data row, which carries the literal `Employee ID` marker. -/
theorem clean_header_repair_witness :
    clean_employee_data ⟨[some "X", some "Y"],
        [[some "Employee ID", some "NAME"], [some "E1", some "Alice"]]⟩ =
      cleanRepaired ⟨[some "Employee ID", some "NAME"], [[some "E1", some "Alice"]]⟩ :=
  (clean_header_repair [some "X", some "Y"] [some "Employee ID", some "NAME"]
    [[some "E1", some "Alice"]]).2.1 (by decide)

/-- C7 counterexample: a table with 3 columns and no recognizable labels
does not get its first three columns labelled positionally; the source
assigns a six-name label list to a 3-column frame, a pandas length
mismatch, so the call fails and no record is produced. -/
theorem clean_three_col_mismatch :
    clean_employee_data ⟨[some "A", some "B", some "C"],
        [[some "1", some "2", some "3"]]⟩ =
      Except.error NormError.lengthMismatch := by decide

/-- C7 amended: when no column label is recognizable, a table with at
least 6 columns has its first six columns relabelled
`Employee ID, User ID, NAME, Status, Department, WINS`, and records are
built from columns 0, 2, 4 (as `Employee ID`, `NAME`, `Department`); with
3 to 5 columns the six-name relabelling raises a length-mismatch error
(as does the three-column relabelling below 3 columns). -/
theorem clean_positional_fallback (hdr r0 : List Cell) (rest : List (List Cell))
    (hmark : markerRow r0 = false)
    (hkeep : ∀ c ∈ hdr, keepCol c = false) (h6 : 6 ≤ hdr.length) :
    clean_employee_data ⟨hdr, r0 :: rest⟩ =
      Except.ok ⟨[some "Employee ID", some "NAME", some "Department"],
        ((r0 :: rest).map (project [0, 2, 4])).filter (fun r =>
          !(r.getD 0 none == none && r.getD 1 none == none))⟩ := by
  show cleanRepaired (repairHeader hdr r0 rest) = _
  rw [repairHeader, if_neg (by simp [hmark])]
  unfold cleanRepaired
  have hkept : (List.range hdr.length).filter (fun j => keepCol (hdr.getD j none)) = [] := by
    rw [List.filter_eq_nil_iff]
    intro j hj
    rw [List.mem_range] at hj
    rw [List.getD_eq_get hdr none hj]
    simp only [List.get_eq_getElem]
    simp [hkeep _ (List.getElem_mem hj)]
  unfold resolveRepaired
  dsimp only
  rw [hkept]
  rw [if_pos (by rfl), if_pos (by omega), if_neg (by omega)]
  rfl

/-- Witness for `clean_positional_fallback`: a 6-column table with opaque
labels; the single data row survives with columns 0, 2, 4. -/
theorem clean_positional_fallback_witness :
    clean_employee_data ⟨[some "A", some "B", some "C", some "D", some "E", some "F"],
        [[some "1", some "2", some "3", some "4", some "5", some "6"]]⟩ =
      Except.ok ⟨[some "Employee ID", some "NAME", some "Department"],
        (([[some "1", some "2", some "3", some "4", some "5", some "6"]] :
            List (List Cell)).map (project [0, 2, 4])).filter (fun r =>
          !(r.getD 0 none == none && r.getD 1 none == none))⟩ :=
  clean_positional_fallback
    [some "A", some "B", some "C", some "D", some "E", some "F"]
    [some "1", some "2", some "3", some "4", some "5", some "6"] []
    (by decide) (by decide) (by decide)
